import Mathlib

/-!
# containerd `pkg/dialer` (Windows) and `log` context helpers

Shallow embedding of

* `vendor/github.com/containerd/containerd/pkg/dialer/dialer_windows.go`
  (`isNoent`, `dialer`, `DialAddress`), and
* `vendor/github.com/containerd/containerd/log/context.go`
  (`WithLogger`, `GetLogger`).

The functions of other packages that these call (`winio.DialPipe`,
`url.Parse`, `net.DialTimeout`, `os.IsNotExist`, `(*logrus.Entry).WithFields`,
the `String` methods of the trace identifiers) are parameters of the
embedding, collected in `Env` and `LogLib`.  Every call of `dialer` to one of
them is recorded, in order, in the `calls` log of the `World`.  For `isNoent`
the standard library's `os.IsNotExist` is also written out, as `osIsNotExist`
on the error values `GoError`.
-/

set_option autoImplicit false

namespace Cri

/-! ## Package `dialer` -/

/-- Go `time.Duration`: a signed count of nanoseconds. -/
abbrev Duration := Int

/-- The fields of a parsed `*url.URL`. -/
structure URL where
  Scheme : String
  Opaque : String
  Host : String
  Path : String
  deriving DecidableEq, Repr

/-- One call from `dialer` into another package, with its arguments. -/
inductive Call where
  /-- `winio.DialPipe(path, &timeout)` -/
  | DialPipe (path : String) (timeout : Option Duration)
  /-- `url.Parse(rawURL)` -/
  | Parse (rawURL : String)
  /-- `net.DialTimeout(network, address, timeout)` -/
  | DialTimeout (network : String) (address : String) (timeout : Duration)
  deriving DecidableEq, Repr

/-- A Go `(net.Conn, error)` result pair; `none` is `nil`. -/
abbrev DialResult (Conn Err : Type) := Option Conn × Option Err

/-- The functions of other packages that the dialer package calls.  `σ` is the
state of the outside world (pipes, sockets, listeners) that a dial reads and
changes. -/
structure Env (σ Conn Err : Type) where
  /-- `winio.DialPipe`; its second argument is a `*time.Duration`. -/
  DialPipe : String → Option Duration → σ → DialResult Conn Err × σ
  /-- `url.Parse` -/
  Parse : String → Except Err URL
  /-- `net.DialTimeout` -/
  DialTimeout : String → String → Duration → σ → DialResult Conn Err × σ
  /-- `os.IsNotExist`; the argument `none` is the `nil` error. -/
  IsNotExist : Option Err → Bool

/-- The outside world together with the log of calls made into it so far. -/
structure World (σ : Type) where
  calls : List Call
  net : σ

/-- Go `strings.HasPrefix`:
`len(s) >= len(prefix) && s[:len(prefix)] == prefix`.  Go compares bytes; on a
string of code points and an ASCII prefix, as here, comparing characters gives
the same answer. -/
def HasPrefix (s pre : String) : Bool :=
  decide (s.data.length ≥ pre.data.length) && decide (s.data.take pre.data.length = pre.data)

/-- The call `winio.DialPipe(path, timeout)`, logged. -/
def callDialPipe {σ Conn Err : Type} (env : Env σ Conn Err) (path : String)
    (timeout : Option Duration) (w : World σ) : DialResult Conn Err × World σ :=
  let r := env.DialPipe path timeout w.net
  (r.1, { calls := w.calls ++ [Call.DialPipe path timeout], net := r.2 })

/-- The call `url.Parse(rawURL)`, logged. -/
def callParse {σ Conn Err : Type} (env : Env σ Conn Err) (rawURL : String)
    (w : World σ) : Except Err URL × World σ :=
  (env.Parse rawURL, { calls := w.calls ++ [Call.Parse rawURL], net := w.net })

/-- The call `net.DialTimeout(network, address, timeout)`, logged. -/
def callDialTimeout {σ Conn Err : Type} (env : Env σ Conn Err) (network address : String)
    (timeout : Duration) (w : World σ) : DialResult Conn Err × World σ :=
  let r := env.DialTimeout network address timeout w.net
  (r.1, { calls := w.calls ++ [Call.DialTimeout network address timeout], net := r.2 })

/-- `func isNoent(err error) bool` -/
def isNoent {σ Conn Err : Type} (env : Env σ Conn Err) (err : Option Err) : Bool :=
  env.IsNotExist err

/-- `func dialer(address string, timeout time.Duration) (net.Conn, error)` -/
def dialer {σ Conn Err : Type} (env : Env σ Conn Err) (address : String)
    (timeout : Duration) (w : World σ) : DialResult Conn Err × World σ :=
  if HasPrefix address "\\\\" then
    callDialPipe env address (some timeout) w
  else
    match callParse env address w with
    | (Except.error err, w1) => ((none, some err), w1)
    | (Except.ok u, w1) =>
      if u.Scheme = "tcp" then
        callDialTimeout env "tcp" u.Host timeout w1
      else
        callDialTimeout env "unix" address timeout w1

/-- `func DialAddress(address string) string` -/
def DialAddress (address : String) : String :=
  address

/-- Whether a call is one of the dial primitives (pipe, TCP or unix). -/
def Call.isDial : Call → Bool
  | Call.DialPipe _ _ => true
  | Call.Parse _ => false
  | Call.DialTimeout _ _ _ => true

/-- What the dial primitive named by a call returns in a given state of the
network; `url.Parse` is no dial. -/
def perform {σ Conn Err : Type} (env : Env σ Conn Err) :
    Call → σ → Option (DialResult Conn Err × σ)
  | Call.DialPipe path timeout, s => some (env.DialPipe path timeout s)
  | Call.Parse _, _ => none
  | Call.DialTimeout network address timeout, s => some (env.DialTimeout network address timeout s)

/-! ### A sample environment

A concrete `Env` on which the theorems below are exercised.  Its network is a
list of listening endpoints; its parser follows the scheme split and the
authority split of Go's `net/url` and does not interpret `?`, `#`, `%`, `@` or
brackets. -/

/-- The sample network: the endpoints with a listener, and the number of
connections handed out so far. -/
structure SampleNet where
  listening : List (String × String)
  opened : Nat
  deriving DecidableEq, Repr

/-- ASCII letter test of `getScheme`. -/
def isSchemeLetter (c : Char) : Bool :=
  (97 ≤ c.toNat && c.toNat ≤ 122) || (65 ≤ c.toNat && c.toNat ≤ 90)

/-- ASCII digit, `+`, `-` or `.`: allowed in a scheme after its first byte. -/
def isSchemeOther (c : Char) : Bool :=
  (48 ≤ c.toNat && c.toNat ≤ 57) || c = '+' || c = '-' || c = '.'

/-- The loop of `net/url`'s `getScheme` from index `i` on, `cs` being
`rawURL[i:]`. -/
def getSchemeFrom (rawURL : List Char) : Nat → List Char → Except String (List Char × List Char)
  | _, [] => Except.ok ([], rawURL)
  | i, c :: cs =>
    if isSchemeLetter c then getSchemeFrom rawURL (i + 1) cs
    else if isSchemeOther c then
      if i = 0 then Except.ok ([], rawURL) else getSchemeFrom rawURL (i + 1) cs
    else if c = ':' then
      if i = 0 then Except.error "missing protocol scheme"
      else Except.ok (rawURL.take i, cs)
    else Except.ok ([], rawURL)

/-- ASCII lower-casing, as `strings.ToLower` acts on a scheme. -/
def lowerASCII (c : Char) : Char :=
  if 65 ≤ c.toNat && c.toNat ≤ 90 then Char.ofNat (c.toNat + 32) else c

/-- The parser of the sample environment, after `net/url`'s `parse`: split off
the scheme and lower-case it; a rest that does not start with `/` is opaque
under a scheme and otherwise a relative path, whose first segment may hold no
colon; a rest that starts with `//` (and, without a scheme, not with `///`)
has its authority up to the next `/` as host. -/
def sampleParse (rawURL : String) : Except String URL :=
  match getSchemeFrom rawURL.data 0 rawURL.data with
  | Except.error e => Except.error e
  | Except.ok (scheme, rest) =>
    let scheme := scheme.map lowerASCII
    if rest.head? ≠ some '/' then
      if scheme ≠ [] then
        Except.ok { Scheme := String.mk scheme, Opaque := String.mk rest, Host := "", Path := "" }
      else if ':' ∈ rest.takeWhile (fun c => c ≠ '/') then
        Except.error "first path segment in URL cannot contain colon"
      else
        Except.ok { Scheme := "", Opaque := "", Host := "", Path := String.mk rest }
    else if (scheme ≠ [] || rest.take 3 ≠ ['/', '/', '/']) && rest.take 2 = ['/', '/'] then
      Except.ok { Scheme := String.mk scheme, Opaque := "",
                  Host := String.mk ((rest.drop 2).takeWhile (fun c => c ≠ '/')),
                  Path := String.mk ((rest.drop 2).dropWhile (fun c => c ≠ '/')) }
    else
      Except.ok { Scheme := String.mk scheme, Opaque := "", Host := "", Path := String.mk rest }

/-- A dial in the sample network: it succeeds, with a fresh connection number,
exactly when the endpoint has a listener. -/
def sampleDial (network address : String) (s : SampleNet) : DialResult Nat String × SampleNet :=
  if (network, address) ∈ s.listening then
    ((some s.opened, none), { s with opened := s.opened + 1 })
  else
    ((none, some "endpoint not found"), s)

/-- The sample environment. -/
def sampleEnv : Env SampleNet Nat String where
  DialPipe := fun path _ s => sampleDial "pipe" path s
  Parse := sampleParse
  DialTimeout := fun network address _ s => sampleDial network address s
  IsNotExist := fun err => decide (err = some "endpoint not found")

/-- A sample world: one pipe, one TCP and one unix listener, nothing called yet. -/
def sampleWorld : World SampleNet where
  calls := []
  net := { listening := [("pipe", "\\\\.\\pipe\\containerd:1"), ("tcp", "127.0.0.1:9090"),
                         ("unix", "/tmp/svc.sock")],
           opened := 0 }

/-! ### Go error values and `os.IsNotExist`

The error values that reach `isNoent`, and the classification that the Go
standard library's `os.IsNotExist` makes of them on Windows. -/

/-- A non-nil Go `error`, as far as `os.IsNotExist` tells errors apart. -/
inductive GoError where
  /-- `os.ErrNotExist` -/
  | ErrNotExist
  /-- a `syscall.Errno` -/
  | Errno (code : Nat)
  /-- `&os.PathError{Op, Path, Err}` -/
  | PathError (op : String) (path : String) (err : GoError)
  /-- `&os.LinkError{Op, Old, New, Err}` -/
  | LinkError (op : String) (old : String) (new : String) (err : GoError)
  /-- `&os.SyscallError{Syscall, Err}` -/
  | SyscallError (call : String) (err : GoError)
  /-- `&net.OpError{Op, Net, Err}`, the error of a failed `net.DialTimeout` -/
  | OpError (op : String) (net : String) (err : GoError)
  /-- `&url.Error{Op, URL, Err}`, the error of a failed `url.Parse` -/
  | URLError (op : String) (url : String) (err : GoError)
  /-- `errors.New(text)`, any other error -/
  | New (text : String)
  deriving DecidableEq, Repr

/-- Windows `ERROR_FILE_NOT_FOUND`. -/
def ERROR_FILE_NOT_FOUND : Nat := 2

/-- Windows `ERROR_PATH_NOT_FOUND`. -/
def ERROR_PATH_NOT_FOUND : Nat := 3

/-- Windows `ERROR_BAD_NETPATH`. -/
def ERROR_BAD_NETPATH : Nat := 53

/-- `syscall.Errno.Is(os.ErrNotExist)` on Windows. -/
def errnoIsNotExist (code : Nat) : Bool :=
  code == ERROR_FILE_NOT_FOUND || code == ERROR_BAD_NETPATH || code == ERROR_PATH_NOT_FOUND

/-- `os.underlyingError`: the error inside a `*os.PathError`, `*os.LinkError` or
`*os.SyscallError`, and the error itself for every other type. -/
def underlyingError : GoError → GoError
  | GoError.PathError _ _ err => err
  | GoError.LinkError _ _ _ err => err
  | GoError.SyscallError _ err => err
  | err => err

/-- `os.IsNotExist(err)`: whether the underlying error is `os.ErrNotExist` or an
errno that is one; `none` is the `nil` error. -/
def osIsNotExist : Option GoError → Bool
  | none => false
  | some err =>
    match underlyingError err with
    | GoError.ErrNotExist => true
    | GoError.Errno code => errnoIsNotExist code
    | _ => false

/-- The innermost error of a chain of wrappers: the failure that the outer
errors report. -/
def rootCause : GoError → GoError
  | GoError.PathError _ _ err => rootCause err
  | GoError.LinkError _ _ _ err => rootCause err
  | GoError.SyscallError _ err => rootCause err
  | GoError.OpError _ _ err => rootCause err
  | GoError.URLError _ _ err => rootCause err
  | err => err

/-- A pipe dial in the sample network; a missing pipe is reported as
`go-winio` reports it, a `*os.PathError` around `ERROR_FILE_NOT_FOUND`. -/
def goDialPipe (path : String) (s : SampleNet) : DialResult Nat GoError × SampleNet :=
  if ("pipe", path) ∈ s.listening then
    ((some s.opened, none), { s with opened := s.opened + 1 })
  else
    ((none, some (GoError.PathError "open" path (GoError.Errno ERROR_FILE_NOT_FOUND))), s)

/-- A `net` dial in the sample network; a missing endpoint is reported in the
shape `net` gives its errors, a `*net.OpError` around a `*os.SyscallError`. -/
def goDialTimeout (network address : String) (s : SampleNet) :
    DialResult Nat GoError × SampleNet :=
  if (network, address) ∈ s.listening then
    ((some s.opened, none), { s with opened := s.opened + 1 })
  else
    ((none, some (GoError.OpError "dial" network
      (GoError.SyscallError "connect" (GoError.Errno ERROR_FILE_NOT_FOUND)))), s)

/-- The sample environment with Go error values and the standard library's
`os.IsNotExist`. -/
def goEnv : Env SampleNet Nat GoError where
  DialPipe := fun path _ s => goDialPipe path s
  Parse := fun rawURL =>
    match sampleParse rawURL with
    | Except.ok u => Except.ok u
    | Except.error text => Except.error (GoError.URLError "parse" rawURL (GoError.New text))
  DialTimeout := fun network address _ s => goDialTimeout network address s
  IsNotExist := osIsNotExist

/-! ## Package `log` -/

/-- A context key: `loggerKey{}` of this package, `contextKey{}` of
`go.opencensus.io/trace`, or a key of any other type. -/
inductive Key where
  | loggerKey
  | traceContextKey
  | other (id : Nat)
  deriving DecidableEq, Repr

/-- A Go interface value as stored in a context: `nil`, a `*logrus.Entry`
(possibly a nil pointer), a `*trace.Span` (possibly a nil pointer), or a value
of another dynamic type. -/
inductive Any (E S : Type) where
  | nil
  | entry (e : Option E)
  | span (s : Option S)
  | other (id : Nat)

/-- A `context.Context`, as far as this package uses one: its `Value` method. -/
structure Context (E S : Type) where
  Value : Key → Any E S

/-- `context.Background()`: no value for any key. -/
def Background {E S : Type} : Context E S :=
  { Value := fun _ => Any.nil }

/-- `context.WithValue(parent, key, val)`: `Value(k)` is `val` at `key` and the
parent's value elsewhere. -/
def WithValue {E S : Type} (parent : Context E S) (key : Key) (val : Any E S) : Context E S :=
  { Value := fun k => if k = key then val else parent.Value k }

/-- `trace.FromContext(ctx)`: `s, _ := ctx.Value(contextKey{}).(*Span)`. -/
def FromContext {E S : Type} (ctx : Context E S) : Option S :=
  match ctx.Value Key.traceContextKey with
  | Any.span s => s
  | _ => none

/-- `trace.NewContext(parent, s)`. -/
def NewContext {E S : Type} (parent : Context E S) (s : Option S) : Context E S :=
  WithValue parent Key.traceContextKey (Any.span s)

/-- `trace.TraceID`, a 16-byte array. -/
abbrev TraceID := List Nat

/-- `trace.SpanID`, an 8-byte array. -/
abbrev SpanID := List Nat

/-- The fields of `trace.SpanContext` that `GetLogger` reads. -/
structure SpanContext where
  TraceID : TraceID
  SpanID : SpanID
  deriving DecidableEq, Repr

/-- A value of a `logrus.Fields` map. -/
inductive FieldValue where
  | str (s : String)
  | other (id : Nat)
  deriving DecidableEq, Repr

/-- `logrus.Fields`, a `map[string]interface{}`. -/
abbrev Fields := String → Option FieldValue

/-- The functions of `logrus` and `trace` that `GetLogger` calls, and the value
that the package variable `L` was initialised with (a non-nil entry). `E` is
the type behind a non-nil `*logrus.Entry`, `S` the type behind a non-nil
`*trace.Span`; a pointer that may be nil is an `Option`. -/
structure LogLib (E S : Type) where
  /-- `var L = logrus.NewEntry(logrus.StandardLogger())` -/
  L : E
  /-- `(*logrus.Entry).WithFields` -/
  WithFields : E → Fields → E
  /-- the `Data` of an entry -/
  Data : E → Fields
  /-- `(*trace.Span).SpanContext` -/
  SpanContext : S → SpanContext
  /-- `trace.TraceID.String` -/
  TraceIDString : TraceID → String
  /-- `trace.SpanID.String` -/
  SpanIDString : SpanID → String

/-- `func WithLogger(ctx context.Context, logger *logrus.Entry) context.Context` -/
def WithLogger {E S : Type} (ctx : Context E S) (logger : Option E) : Context E S :=
  WithValue ctx Key.loggerKey (Any.entry logger)

/-- The type assertion `v.(*logrus.Entry)` in its two-result form, the second
result dropped. -/
def assertEntry {E S : Type} : Any E S → Option E
  | Any.entry e => e
  | _ => none

/-- The literal `logrus.Fields{"traceID": traceID, "spanID": spanID}`. -/
def spanFields (traceID spanID : String) : Fields :=
  fun k =>
    if k = "traceID" then some (FieldValue.str traceID)
    else if k = "spanID" then some (FieldValue.str spanID)
    else none

/-- `func GetLogger(ctx context.Context) *logrus.Entry` -/
def GetLogger {E S : Type} (lib : LogLib E S) (ctx : Context E S) : E :=
  let e : Option E := assertEntry (ctx.Value Key.loggerKey)
  let e : E := match e with
    | none => lib.L
    | some e => e
  match FromContext ctx with
  | some span =>
    let spanCtx := lib.SpanContext span
    lib.WithFields e (spanFields (lib.TraceIDString spanCtx.TraceID)
      (lib.SpanIDString spanCtx.SpanID))
  | none => e

/-- The logger `GetLogger` starts from: the entry stored under `loggerKey{}`
when there is a non-nil one, the default `L` otherwise. -/
def baseLogger {E S : Type} (lib : LogLib E S) (ctx : Context E S) : E :=
  match assertEntry (ctx.Value Key.loggerKey) with
  | none => lib.L
  | some e => e

/-- What `logrus` documents of `WithFields` for fields whose values are all
strings: the data of the result is the data of the entry with the new fields
written over it. -/
def MergesFields {E S : Type} (lib : LogLib E S) : Prop :=
  ∀ (e : E) (f : Fields), (∀ k v, f k = some v → ∃ t, v = FieldValue.str t) →
    ∀ k, lib.Data (lib.WithFields e f) k =
      match f k with
      | some v => some v
      | none => lib.Data e k

/-! ### A sample logging library -/

/-- A sample entry: the number of its logger and its data. -/
structure SampleEntry where
  Logger : Nat
  Data : Fields

/-- Two lower-case hexadecimal digits per byte. -/
def hexBytes (bs : List Nat) : String :=
  String.mk (bs.flatMap (fun b => [Nat.digitChar (b / 16 % 16), Nat.digitChar (b % 16)]))

/-- The sample library: `WithFields` copies the entry and lets the new fields
override the old ones of the same name. -/
def sampleLib : LogLib SampleEntry SpanContext where
  L := { Logger := 0, Data := fun _ => none }
  WithFields := fun e f =>
    { Logger := e.Logger,
      Data := fun k => match f k with
        | some v => some v
        | none => e.Data k }
  Data := fun e => e.Data
  SpanContext := fun s => s
  TraceIDString := hexBytes
  SpanIDString := hexBytes

/-- A sample entry with one field. -/
def sampleEntry : SampleEntry where
  Logger := 1
  Data := fun k => if k = "module" then some (FieldValue.str "cri") else none

/-- A sample span context. -/
def sampleSpan : SpanContext where
  TraceID := [1, 35, 69, 103, 137, 171, 205, 239, 0, 0, 0, 0, 0, 0, 0, 1]
  SpanID := [0, 0, 0, 0, 0, 0, 0, 42]

/-! ## The dialer: theorems -/

theorem dialer_pipe_branch {σ Conn Err : Type} (env : Env σ Conn Err) (address : String) (timeout : Duration)
    (w : World σ) (h : HasPrefix address "\\\\" = true) :
    dialer env address timeout w = callDialPipe env address (some timeout) w := by
  simp [dialer, h]

theorem dialer_error_branch {σ Conn Err : Type} (env : Env σ Conn Err) (address : String) (timeout : Duration)
    (w : World σ) (e : Err) (h : HasPrefix address "\\\\" = false)
    (hp : env.Parse address = Except.error e) :
    dialer env address timeout w =
      ((none, some e), { calls := w.calls ++ [Call.Parse address], net := w.net }) := by
  simp [dialer, h, callParse, hp]

theorem dialer_tcp_branch {σ Conn Err : Type} (env : Env σ Conn Err) (address : String) (timeout : Duration)
    (w : World σ) (u : URL) (h : HasPrefix address "\\\\" = false)
    (hp : env.Parse address = Except.ok u) (hs : u.Scheme = "tcp") :
    dialer env address timeout w =
      callDialTimeout env "tcp" u.Host timeout
        { calls := w.calls ++ [Call.Parse address], net := w.net } := by
  simp [dialer, h, callParse, hp, hs]

theorem dialer_unix_branch {σ Conn Err : Type} (env : Env σ Conn Err) (address : String) (timeout : Duration)
    (w : World σ) (u : URL) (h : HasPrefix address "\\\\" = false)
    (hp : env.Parse address = Except.ok u) (hs : u.Scheme ≠ "tcp") :
    dialer env address timeout w =
      callDialTimeout env "unix" address timeout
        { calls := w.calls ++ [Call.Parse address], net := w.net } := by
  simp [dialer, h, callParse, hp, hs]

/-- C1: for an address that starts with the two-backslash prefix, `dialer`
returns exactly what `winio.DialPipe` returns on the whole address and the
given timeout, and that one pipe dial is the only call it makes: no
`url.Parse`, no `net.DialTimeout`.  This holds whatever `url.Parse` would have
answered, in particular when it would have failed. -/
theorem dialer_pipe {σ Conn Err : Type} (env : Env σ Conn Err) (address : String)
    (timeout : Duration) (w : World σ) (h : HasPrefix address "\\\\" = true) :
    (dialer env address timeout w).1 = (env.DialPipe address (some timeout) w.net).1 ∧
    (dialer env address timeout w).2.net = (env.DialPipe address (some timeout) w.net).2 ∧
    (dialer env address timeout w).2.calls = w.calls ++ [Call.DialPipe address (some timeout)] ∧
    (∀ e : Err, env.Parse address = Except.error e →
      (dialer env address timeout w).1 = (env.DialPipe address (some timeout) w.net).1 ∧
      (dialer env address timeout w).2.calls =
        w.calls ++ [Call.DialPipe address (some timeout)]) := by
  rw [dialer_pipe_branch env address timeout w h]
  simp [callDialPipe]

/-- Witness of C1: in the sample world the pipe address
`\\.\pipe\containerd:1`, which the sample parser rejects, is dialled as a
pipe. -/
theorem dialer_pipe_witness :
    sampleEnv.Parse "\\\\.\\pipe\\containerd:1" =
      Except.error "first path segment in URL cannot contain colon" ∧
    (dialer sampleEnv "\\\\.\\pipe\\containerd:1" 5 sampleWorld).1 = (some 0, none) ∧
    (dialer sampleEnv "\\\\.\\pipe\\containerd:1" 5 sampleWorld).2.calls =
      [Call.DialPipe "\\\\.\\pipe\\containerd:1" (some 5)] :=
  ⟨rfl,
   (dialer_pipe sampleEnv "\\\\.\\pipe\\containerd:1" 5 sampleWorld (by decide)).1.trans rfl,
   (dialer_pipe sampleEnv "\\\\.\\pipe\\containerd:1" 5 sampleWorld (by decide)).2.2.1⟩

/-- C2: for an address without the two-backslash prefix that `url.Parse`
accepts with scheme `tcp`, `dialer` calls `url.Parse` and then makes exactly
one dial, `net.DialTimeout("tcp", u.Host, timeout)`, whose result it returns;
no pipe or unix dial is made.  For `tcp://127.0.0.1:9090`, parsed to scheme
`tcp` and host `127.0.0.1:9090`, the dial target is `127.0.0.1:9090`. -/
theorem dialer_tcp :
    (∀ {σ Conn Err : Type} (env : Env σ Conn Err) (address : String) (timeout : Duration)
      (w : World σ) (u : URL),
      HasPrefix address "\\\\" = false → env.Parse address = Except.ok u → u.Scheme = "tcp" →
      (dialer env address timeout w).1 = (env.DialTimeout "tcp" u.Host timeout w.net).1 ∧
      (dialer env address timeout w).2.net = (env.DialTimeout "tcp" u.Host timeout w.net).2 ∧
      (dialer env address timeout w).2.calls =
        w.calls ++ [Call.Parse address, Call.DialTimeout "tcp" u.Host timeout]) ∧
    (∀ {σ Conn Err : Type} (env : Env σ Conn Err) (timeout : Duration) (w : World σ) (u : URL),
      env.Parse "tcp://127.0.0.1:9090" = Except.ok u → u.Scheme = "tcp" →
      u.Host = "127.0.0.1:9090" →
      (dialer env "tcp://127.0.0.1:9090" timeout w).1 =
        (env.DialTimeout "tcp" "127.0.0.1:9090" timeout w.net).1 ∧
      (dialer env "tcp://127.0.0.1:9090" timeout w).2.calls =
        w.calls ++ [Call.Parse "tcp://127.0.0.1:9090",
                    Call.DialTimeout "tcp" "127.0.0.1:9090" timeout]) := by
  refine ⟨?_, ?_⟩
  · intro σ Conn Err env address timeout w u h hp hs
    rw [dialer_tcp_branch env address timeout w u h hp hs]
    simp [callDialTimeout]
  · intro σ Conn Err env timeout w u hp hs hh
    rw [dialer_tcp_branch env "tcp://127.0.0.1:9090" timeout w u (by decide) hp hs, hh]
    simp [callDialTimeout]

/-- Witness of C2: in the sample world `tcp://127.0.0.1:9090` is parsed to
scheme `tcp`, host `127.0.0.1:9090`, and dialled over TCP at that host. -/
theorem dialer_tcp_witness :
    (dialer sampleEnv "tcp://127.0.0.1:9090" 5 sampleWorld).1 = (some 0, none) ∧
    (dialer sampleEnv "tcp://127.0.0.1:9090" 5 sampleWorld).2.calls =
      [Call.Parse "tcp://127.0.0.1:9090", Call.DialTimeout "tcp" "127.0.0.1:9090" 5] :=
  ⟨(dialer_tcp.2 sampleEnv 5 sampleWorld
      { Scheme := "tcp", Opaque := "", Host := "127.0.0.1:9090", Path := "" } rfl rfl rfl).1.trans
      rfl,
   (dialer_tcp.1 sampleEnv "tcp://127.0.0.1:9090" 5 sampleWorld
      { Scheme := "tcp", Opaque := "", Host := "127.0.0.1:9090", Path := "" }
      (by decide) rfl rfl).2.2⟩

/-- C3: for an address without the two-backslash prefix that `url.Parse`
accepts with a scheme other than `tcp` (the empty scheme included), `dialer`
calls `url.Parse` and then makes exactly one dial,
`net.DialTimeout("unix", address, timeout)` on the original address string,
whose result it returns.  For `/tmp/svc.sock` the unix endpoint is
`/tmp/svc.sock`; for `unix:///tmp/svc.sock` the scheme stays in the endpoint. -/
theorem dialer_unix :
    (∀ {σ Conn Err : Type} (env : Env σ Conn Err) (address : String) (timeout : Duration)
      (w : World σ) (u : URL),
      HasPrefix address "\\\\" = false → env.Parse address = Except.ok u → u.Scheme ≠ "tcp" →
      (dialer env address timeout w).1 = (env.DialTimeout "unix" address timeout w.net).1 ∧
      (dialer env address timeout w).2.net = (env.DialTimeout "unix" address timeout w.net).2 ∧
      (dialer env address timeout w).2.calls =
        w.calls ++ [Call.Parse address, Call.DialTimeout "unix" address timeout]) ∧
    (∀ {σ Conn Err : Type} (env : Env σ Conn Err) (timeout : Duration) (w : World σ) (u : URL),
      env.Parse "/tmp/svc.sock" = Except.ok u → u.Scheme ≠ "tcp" →
      (dialer env "/tmp/svc.sock" timeout w).1 =
        (env.DialTimeout "unix" "/tmp/svc.sock" timeout w.net).1 ∧
      (dialer env "/tmp/svc.sock" timeout w).2.calls =
        w.calls ++ [Call.Parse "/tmp/svc.sock",
                    Call.DialTimeout "unix" "/tmp/svc.sock" timeout]) ∧
    (∀ {σ Conn Err : Type} (env : Env σ Conn Err) (timeout : Duration) (w : World σ) (u : URL),
      env.Parse "unix:///tmp/svc.sock" = Except.ok u → u.Scheme ≠ "tcp" →
      (dialer env "unix:///tmp/svc.sock" timeout w).2.calls =
        w.calls ++ [Call.Parse "unix:///tmp/svc.sock",
                    Call.DialTimeout "unix" "unix:///tmp/svc.sock" timeout]) := by
  refine ⟨?_, ?_, ?_⟩
  · intro σ Conn Err env address timeout w u h hp hs
    rw [dialer_unix_branch env address timeout w u h hp hs]
    simp [callDialTimeout]
  · intro σ Conn Err env timeout w u hp hs
    rw [dialer_unix_branch env "/tmp/svc.sock" timeout w u (by decide) hp hs]
    simp [callDialTimeout]
  · intro σ Conn Err env timeout w u hp hs
    rw [dialer_unix_branch env "unix:///tmp/svc.sock" timeout w u (by decide) hp hs]
    simp [callDialTimeout]

/-- Witness of C3: in the sample world `/tmp/svc.sock` is parsed with an empty
scheme and dialled as the unix endpoint `/tmp/svc.sock`; the address
`unix:///tmp/svc.sock` is dialled with its scheme left in place. -/
theorem dialer_unix_witness :
    (dialer sampleEnv "/tmp/svc.sock" 5 sampleWorld).1 = (some 0, none) ∧
    (dialer sampleEnv "/tmp/svc.sock" 5 sampleWorld).2.calls =
      [Call.Parse "/tmp/svc.sock", Call.DialTimeout "unix" "/tmp/svc.sock" 5] ∧
    (dialer sampleEnv "unix:///tmp/svc.sock" 5 sampleWorld).2.calls =
      [Call.Parse "unix:///tmp/svc.sock", Call.DialTimeout "unix" "unix:///tmp/svc.sock" 5] :=
  ⟨(dialer_unix.1 sampleEnv "/tmp/svc.sock" 5 sampleWorld
      { Scheme := "", Opaque := "", Host := "", Path := "/tmp/svc.sock" }
      (by decide) rfl (by decide)).1.trans rfl,
   (dialer_unix.2.1 sampleEnv 5 sampleWorld
      { Scheme := "", Opaque := "", Host := "", Path := "/tmp/svc.sock" } rfl (by decide)).2,
   dialer_unix.2.2 sampleEnv 5 sampleWorld
      { Scheme := "unix", Opaque := "", Host := "", Path := "/tmp/svc.sock" } rfl (by decide)⟩

/-- C4: for an address without the two-backslash prefix that `url.Parse`
rejects, `dialer` returns a nil connection together with exactly the parse
error, and `url.Parse` is the only call it makes: no pipe, TCP or unix dial,
and the network is left as it was.  The address `://bad` has no such prefix,
so this is what happens to it when `url.Parse` rejects it. -/
theorem dialer_parse_error :
    (∀ {σ Conn Err : Type} (env : Env σ Conn Err) (address : String) (timeout : Duration)
      (w : World σ) (e : Err),
      HasPrefix address "\\\\" = false → env.Parse address = Except.error e →
      (dialer env address timeout w).1 = (none, some e) ∧
      (dialer env address timeout w).2.net = w.net ∧
      (dialer env address timeout w).2.calls = w.calls ++ [Call.Parse address] ∧
      ((dialer env address timeout w).2.calls.drop w.calls.length).filter Call.isDial = []) ∧
    HasPrefix "://bad" "\\\\" = false ∧
    (∀ {σ Conn Err : Type} (env : Env σ Conn Err) (timeout : Duration) (w : World σ) (e : Err),
      env.Parse "://bad" = Except.error e →
      (dialer env "://bad" timeout w).1 = (none, some e) ∧
      (dialer env "://bad" timeout w).2.net = w.net ∧
      (dialer env "://bad" timeout w).2.calls = w.calls ++ [Call.Parse "://bad"]) := by
  refine ⟨?_, by decide, ?_⟩
  · intro σ Conn Err env address timeout w e h hp
    rw [dialer_error_branch env address timeout w e h hp]
    simp [Call.isDial]
  · intro σ Conn Err env timeout w e hp
    rw [dialer_error_branch env "://bad" timeout w e (by decide) hp]
    simp

/-- Witness of C4: the sample parser rejects `://bad`, and `dialer` returns
that error having made no dial. -/
theorem dialer_parse_error_witness :
    sampleEnv.Parse "://bad" = Except.error "missing protocol scheme" ∧
    (dialer sampleEnv "://bad" 5 sampleWorld).1 = (none, some "missing protocol scheme") ∧
    (dialer sampleEnv "://bad" 5 sampleWorld).2.net = sampleWorld.net ∧
    (dialer sampleEnv "://bad" 5 sampleWorld).2.calls = [Call.Parse "://bad"] :=
  ⟨rfl,
   (dialer_parse_error.2.2 sampleEnv 5 sampleWorld "missing protocol scheme" rfl).1,
   (dialer_parse_error.1 sampleEnv "://bad" 5 sampleWorld "missing protocol scheme"
      (by decide) rfl).2.1,
   (dialer_parse_error.2.2 sampleEnv 5 sampleWorld "missing protocol scheme" rfl).2.2⟩

/-- C5: the calls of one `dialer` run are appended to the log, and whenever
one of them is a dial primitive (pipe, TCP or unix) it is the only dial of the
run and the `(connection, error)` pair that `dialer` returns is exactly the
pair that this primitive returned, the network being left as the primitive
left it.  A dial is reached whenever the address has the two-backslash prefix
or `url.Parse` accepts it. -/
theorem dialer_returns_dial_result {σ Conn Err : Type} (env : Env σ Conn Err)
    (address : String) (timeout : Duration) (w : World σ) :
    ∃ new : List Call,
      (dialer env address timeout w).2.calls = w.calls ++ new ∧
      (∀ c ∈ new, c.isDial = true →
        new.filter Call.isDial = [c] ∧
        perform env c w.net =
          some ((dialer env address timeout w).1, (dialer env address timeout w).2.net)) ∧
      ((HasPrefix address "\\\\" = true ∨ ∃ u, env.Parse address = Except.ok u) →
        ∃ c ∈ new, c.isDial = true) := by
  cases h : HasPrefix address "\\\\" with
  | true =>
    refine ⟨[Call.DialPipe address (some timeout)], ?_, ?_, ?_⟩
    · rw [dialer_pipe_branch env address timeout w h]
      simp [callDialPipe]
    · intro c hc _
      rw [dialer_pipe_branch env address timeout w h]
      simp only [List.mem_singleton] at hc
      subst hc
      simp [Call.isDial, perform, callDialPipe]
    · intro _
      exact ⟨_, List.mem_singleton_self _, rfl⟩
  | false =>
    cases hp : env.Parse address with
    | error e =>
      refine ⟨[Call.Parse address], ?_, ?_, ?_⟩
      · rw [dialer_error_branch env address timeout w e h hp]
      · intro c hc hd
        simp only [List.mem_singleton] at hc
        subst hc
        simp [Call.isDial] at hd
      · intro hr
        rcases hr with hr | ⟨u, hu⟩
        · simp at hr
        · simp at hu
    | ok u =>
      by_cases hs : u.Scheme = "tcp"
      · refine ⟨[Call.Parse address, Call.DialTimeout "tcp" u.Host timeout], ?_, ?_, ?_⟩
        · rw [dialer_tcp_branch env address timeout w u h hp hs]
          simp [callDialTimeout]
        · intro c hc hd
          rw [dialer_tcp_branch env address timeout w u h hp hs]
          simp only [List.mem_cons, List.mem_singleton, List.not_mem_nil, or_false] at hc
          rcases hc with hc | hc
          · subst hc
            simp [Call.isDial] at hd
          · subst hc
            simp [Call.isDial, perform, callDialTimeout]
        · intro _
          exact ⟨Call.DialTimeout "tcp" u.Host timeout, by simp, rfl⟩
      · refine ⟨[Call.Parse address, Call.DialTimeout "unix" address timeout], ?_, ?_, ?_⟩
        · rw [dialer_unix_branch env address timeout w u h hp hs]
          simp [callDialTimeout]
        · intro c hc hd
          rw [dialer_unix_branch env address timeout w u h hp hs]
          simp only [List.mem_cons, List.mem_singleton, List.not_mem_nil, or_false] at hc
          rcases hc with hc | hc
          · subst hc
            simp [Call.isDial] at hd
          · subst hc
            simp [Call.isDial, perform, callDialTimeout]
        · intro _
          exact ⟨Call.DialTimeout "unix" address timeout, by simp, rfl⟩

/-- C6, refuted as stated: the unix dial of `/tmp/missing.sock`, which has no
listener in the sample world, fails with a `*net.OpError` whose root cause is
`ERROR_FILE_NOT_FOUND`, and `isNoent` answers false on that dial failure,
while on the failure of the missing pipe `\\.\pipe\missing`, with the same
root cause, it answers true. -/
theorem isNoent_missing_socket :
    (dialer goEnv "/tmp/missing.sock" 5 sampleWorld).1 =
      (none, some (GoError.OpError "dial" "unix"
        (GoError.SyscallError "connect" (GoError.Errno ERROR_FILE_NOT_FOUND)))) ∧
    rootCause (GoError.OpError "dial" "unix"
        (GoError.SyscallError "connect" (GoError.Errno ERROR_FILE_NOT_FOUND))) =
      GoError.Errno ERROR_FILE_NOT_FOUND ∧
    isNoent goEnv (dialer goEnv "/tmp/missing.sock" 5 sampleWorld).1.2 = false ∧
    rootCause (GoError.PathError "open" "\\\\.\\pipe\\missing"
        (GoError.Errno ERROR_FILE_NOT_FOUND)) =
      GoError.Errno ERROR_FILE_NOT_FOUND ∧
    (dialer goEnv "\\\\.\\pipe\\missing" 5 sampleWorld).1 =
      (none, some (GoError.PathError "open" "\\\\.\\pipe\\missing"
        (GoError.Errno ERROR_FILE_NOT_FOUND))) ∧
    isNoent goEnv (dialer goEnv "\\\\.\\pipe\\missing" 5 sampleWorld).1.2 = true :=
  ⟨rfl, rfl, rfl, rfl, rfl, rfl⟩

theorem osIsNotExist_iff (e : GoError) :
    osIsNotExist (some e) = true ↔
      underlyingError e = GoError.ErrNotExist ∨
      ∃ code, underlyingError e = GoError.Errno code ∧ errnoIsNotExist code = true := by
  simp only [osIsNotExist]
  generalize underlyingError e = u
  cases u <;> simp

/-- C6, amended: with the standard library's `os.IsNotExist`, `isNoent(err)` is
`os.IsNotExist(err)` for every error value.  It is false on the nil error; it
is true exactly when the error, itself or inside one `*os.PathError`,
`*os.LinkError` or `*os.SyscallError`, is `os.ErrNotExist` or one of the codes
`ERROR_FILE_NOT_FOUND`, `ERROR_BAD_NETPATH`, `ERROR_PATH_NOT_FOUND`, so it is
true on the `*os.PathError` of a missing pipe; and it is false on every
`*net.OpError`, whatever it wraps (a refused connection, or a missing socket
file), and on every `*url.Error` (a parse error). -/
theorem isNoent_classification {σ Conn : Type} (env : Env σ Conn GoError)
    (h : env.IsNotExist = osIsNotExist) :
    (∀ err : Option GoError, isNoent env err = osIsNotExist err) ∧
    isNoent env none = false ∧
    (∀ e : GoError, isNoent env (some e) = true ↔
      underlyingError e = GoError.ErrNotExist ∨
      ∃ code, underlyingError e = GoError.Errno code ∧
        (code = ERROR_FILE_NOT_FOUND ∨ code = ERROR_BAD_NETPATH ∨
          code = ERROR_PATH_NOT_FOUND)) ∧
    (∀ op path : String,
      isNoent env (some (GoError.PathError op path (GoError.Errno ERROR_FILE_NOT_FOUND))) =
        true) ∧
    (∀ (op net : String) (e : GoError), isNoent env (some (GoError.OpError op net e)) = false) ∧
    (∀ (op url : String) (e : GoError), isNoent env (some (GoError.URLError op url e)) = false) ∧
    (∀ text : String, isNoent env (some (GoError.New text)) = false) := by
  have hi : ∀ err : Option GoError, isNoent env err = osIsNotExist err := by
    intro err
    simp [isNoent, h]
  refine ⟨hi, ?_, ?_, ?_, ?_, ?_, ?_⟩
  · rw [hi]
    rfl
  · intro e
    rw [hi, osIsNotExist_iff]
    simp [errnoIsNotExist, or_assoc]
  · intro op path
    rw [hi]
    rfl
  · intro op net e
    rw [hi]
    rfl
  · intro op url e
    rw [hi]
    rfl
  · intro text
    rw [hi]
    rfl

/-- Witness of C6, amended: in the sample environment with Go errors, `isNoent`
is false on nil, true on the failure of a missing pipe, and false on the
`*net.OpError` of a refused or missing endpoint and on a parse error. -/
theorem isNoent_classification_witness :
    isNoent goEnv none = false ∧
    isNoent goEnv (some (GoError.PathError "open" "\\\\.\\pipe\\missing"
      (GoError.Errno ERROR_FILE_NOT_FOUND))) = true ∧
    isNoent goEnv (some (GoError.OpError "dial" "unix"
      (GoError.SyscallError "connect" (GoError.Errno ERROR_FILE_NOT_FOUND)))) = false ∧
    isNoent goEnv (some (GoError.URLError "parse" "://bad"
      (GoError.New "missing protocol scheme"))) = false :=
  ⟨(isNoent_classification goEnv rfl).2.1,
   (isNoent_classification goEnv rfl).2.2.2.1 "open" "\\\\.\\pipe\\missing",
   (isNoent_classification goEnv rfl).2.2.2.2.1 "dial" "unix" _,
   (isNoent_classification goEnv rfl).2.2.2.2.2.1 "parse" "://bad" _⟩

/-- C7: `DialAddress` returns its argument, so applying it twice is the same
as applying it once. -/
theorem DialAddress_id (address : String) :
    DialAddress address = address ∧
    DialAddress (DialAddress address) = DialAddress address := by
  simp [DialAddress]

/-- C10: the empty address has no two-backslash prefix, and when `url.Parse`
accepts it with an empty scheme `dialer` adds no error of its own: it calls
`net.DialTimeout("unix", "", timeout)` and returns that dial's result. -/
theorem dialer_empty_address {σ Conn Err : Type} (env : Env σ Conn Err) (timeout : Duration)
    (w : World σ) (u : URL) (hp : env.Parse "" = Except.ok u) (hs : u.Scheme = "") :
    HasPrefix "" "\\\\" = false ∧
    (dialer env "" timeout w).1 = (env.DialTimeout "unix" "" timeout w.net).1 ∧
    (dialer env "" timeout w).2.net = (env.DialTimeout "unix" "" timeout w.net).2 ∧
    (dialer env "" timeout w).2.calls =
      w.calls ++ [Call.Parse "", Call.DialTimeout "unix" "" timeout] := by
  have hs2 : u.Scheme ≠ "tcp" := by rw [hs]; decide
  rw [dialer_unix_branch env "" timeout w u (by decide) hp hs2]
  refine ⟨by decide, ?_⟩
  simp [callDialTimeout]

/-- Witness of C10: in the sample world the empty address parses with an empty
scheme and is dialled as the unix endpoint with the empty name, whose failure
is what `dialer` returns. -/
theorem dialer_empty_address_witness :
    (dialer sampleEnv "" 5 sampleWorld).1 = (none, some "endpoint not found") ∧
    (dialer sampleEnv "" 5 sampleWorld).2.calls =
      [Call.Parse "", Call.DialTimeout "unix" "" 5] :=
  ⟨(dialer_empty_address sampleEnv 5 sampleWorld
      { Scheme := "", Opaque := "", Host := "", Path := "" } rfl rfl).2.1.trans rfl,
   (dialer_empty_address sampleEnv 5 sampleWorld
      { Scheme := "", Opaque := "", Host := "", Path := "" } rfl rfl).2.2.2⟩

/-! ## The logger of a context: theorems -/

theorem FromContext_WithLogger {E S : Type} (ctx : Context E S) (logger : Option E) :
    FromContext (WithLogger ctx logger) = FromContext ctx := by
  simp [FromContext, WithLogger, WithValue]

theorem GetLogger_eq_baseLogger {E S : Type} (lib : LogLib E S) (ctx : Context E S)
    (h : FromContext ctx = none) : GetLogger lib ctx = baseLogger lib ctx := by
  simp [GetLogger, baseLogger, h]

/-- C8: on a context that carries no trace span, `GetLogger` returns the
non-nil logger attached by the latest `WithLogger` (an inner `WithLogger`
overrides an outer one, and values attached later under other keys do not
hide it), and the default logger `L` when the attached logger is nil or when
nothing is stored under the logger key. -/
theorem GetLogger_no_span {E S : Type} (lib : LogLib E S) (ctx : Context E S)
    (h : FromContext ctx = none) :
    (∀ l : E, GetLogger lib (WithLogger ctx (some l)) = l) ∧
    (∀ (l0 : Option E) (l : E), GetLogger lib (WithLogger (WithLogger ctx l0) (some l)) = l) ∧
    (∀ (l : E) (id : Nat) (v : Any E S),
      GetLogger lib (WithValue (WithLogger ctx (some l)) (Key.other id) v) = l) ∧
    GetLogger lib (WithLogger ctx none) = lib.L ∧
    (∀ l0 : Option E, GetLogger lib (WithLogger (WithLogger ctx l0) none) = lib.L) ∧
    (∀ l : E, ctx.Value Key.loggerKey = Any.entry (some l) → GetLogger lib ctx = l) ∧
    (ctx.Value Key.loggerKey = Any.entry none → GetLogger lib ctx = lib.L) ∧
    (ctx.Value Key.loggerKey = Any.nil → GetLogger lib ctx = lib.L) := by
  refine ⟨?_, ?_, ?_, ?_, ?_, ?_, ?_, ?_⟩
  · intro l
    rw [GetLogger_eq_baseLogger lib _ (by rw [FromContext_WithLogger]; exact h)]
    simp [baseLogger, WithLogger, WithValue, assertEntry]
  · intro l0 l
    rw [GetLogger_eq_baseLogger lib _
      (by rw [FromContext_WithLogger, FromContext_WithLogger]; exact h)]
    simp [baseLogger, WithLogger, WithValue, assertEntry]
  · intro l id v
    have h2 : FromContext (WithValue (WithLogger ctx (some l)) (Key.other id) v) = none := by
      have := FromContext_WithLogger ctx (some l)
      simp [FromContext, WithLogger, WithValue] at this h ⊢
      exact h
    rw [GetLogger_eq_baseLogger lib _ h2]
    simp [baseLogger, WithLogger, WithValue, assertEntry]
  · rw [GetLogger_eq_baseLogger lib _ (by rw [FromContext_WithLogger]; exact h)]
    simp [baseLogger, WithLogger, WithValue, assertEntry]
  · intro l0
    rw [GetLogger_eq_baseLogger lib _
      (by rw [FromContext_WithLogger, FromContext_WithLogger]; exact h)]
    simp [baseLogger, WithLogger, WithValue, assertEntry]
  · intro l hl
    rw [GetLogger_eq_baseLogger lib _ h]
    simp [baseLogger, hl, assertEntry]
  · intro hl
    rw [GetLogger_eq_baseLogger lib _ h]
    simp [baseLogger, hl, assertEntry]
  · intro hl
    rw [GetLogger_eq_baseLogger lib _ h]
    simp [baseLogger, hl, assertEntry]

/-- Witness of C8: the background context carries no span; with the sample
entry attached `GetLogger` returns that entry, and with a nil logger attached
it returns the default logger. -/
theorem GetLogger_no_span_witness :
    GetLogger sampleLib (WithLogger Background (some sampleEntry)) = sampleEntry ∧
    GetLogger sampleLib (WithLogger (Background : Context SampleEntry SpanContext) none) =
      sampleLib.L :=
  ⟨(GetLogger_no_span sampleLib Background rfl).1 sampleEntry,
   (GetLogger_no_span sampleLib Background rfl).2.2.2.1⟩

theorem sampleLib_mergesFields : MergesFields sampleLib := by
  intro e f _ k
  rfl

theorem spanFields_values (traceID spanID : String) (k : String) (v : FieldValue)
    (h : spanFields traceID spanID k = some v) : ∃ t, v = FieldValue.str t := by
  unfold spanFields at h
  split_ifs at h
  · exact ⟨traceID, (Option.some.inj h).symm⟩
  · exact ⟨spanID, (Option.some.inj h).symm⟩

/-- C9: on a context that carries a trace span, `GetLogger` returns
`WithFields` of the logger it returns without the span (the attached non-nil
logger, or the default `L`) and the two fields `traceID`, the string form of
the span's trace ID, and `spanID`, the string form of its span ID; with
`WithFields` merging fields as `logrus` documents, these two fields have those
values and every other field is that of the base logger.  On a context
without a span the base logger is returned as it is, no field added. -/
theorem GetLogger_span :
    (∀ {E S : Type} (lib : LogLib E S) (ctx : Context E S) (span : S),
      FromContext ctx = some span →
      GetLogger lib ctx =
        lib.WithFields (baseLogger lib ctx)
          (spanFields (lib.TraceIDString (lib.SpanContext span).TraceID)
            (lib.SpanIDString (lib.SpanContext span).SpanID)) ∧
      baseLogger lib ctx = GetLogger lib (WithValue ctx Key.traceContextKey Any.nil) ∧
      (∀ k, k ≠ "traceID" → k ≠ "spanID" →
        spanFields (lib.TraceIDString (lib.SpanContext span).TraceID)
          (lib.SpanIDString (lib.SpanContext span).SpanID) k = none) ∧
      (MergesFields lib →
        lib.Data (GetLogger lib ctx) "traceID" =
          some (FieldValue.str (lib.TraceIDString (lib.SpanContext span).TraceID)) ∧
        lib.Data (GetLogger lib ctx) "spanID" =
          some (FieldValue.str (lib.SpanIDString (lib.SpanContext span).SpanID)) ∧
        ∀ k, k ≠ "traceID" → k ≠ "spanID" →
          lib.Data (GetLogger lib ctx) k = lib.Data (baseLogger lib ctx) k)) ∧
    (∀ {E S : Type} (lib : LogLib E S) (ctx : Context E S),
      FromContext ctx = none →
      GetLogger lib ctx = baseLogger lib ctx ∧
      ∀ k, lib.Data (GetLogger lib ctx) k = lib.Data (baseLogger lib ctx) k) := by
  refine ⟨?_, ?_⟩
  · intro E S lib ctx span h
    have hg : GetLogger lib ctx =
        lib.WithFields (baseLogger lib ctx)
          (spanFields (lib.TraceIDString (lib.SpanContext span).TraceID)
            (lib.SpanIDString (lib.SpanContext span).SpanID)) := by
      simp [GetLogger, baseLogger, h]
    refine ⟨hg, ?_, ?_, ?_⟩
    · have h0 : FromContext (WithValue ctx Key.traceContextKey (Any.nil : Any E S)) = none := by
        simp [FromContext, WithValue]
      rw [GetLogger_eq_baseLogger lib _ h0]
      simp [baseLogger, WithValue]
    · intro k h1 h2
      simp [spanFields, h1, h2]
    · intro hm
      have hk := hm (baseLogger lib ctx) _
        (spanFields_values (lib.TraceIDString (lib.SpanContext span).TraceID)
          (lib.SpanIDString (lib.SpanContext span).SpanID))
      rw [hg]
      refine ⟨?_, ?_, ?_⟩
      · rw [hk "traceID"]
        simp [spanFields]
      · rw [hk "spanID"]
        simp [spanFields]
      · intro k h1 h2
        rw [hk k]
        simp [spanFields, h1, h2]
  · intro E S lib ctx h
    rw [GetLogger_eq_baseLogger lib ctx h]
    exact ⟨rfl, fun _ => rfl⟩

/-- Witness of C9: with the sample entry attached and the sample span in the
context, the returned logger has `traceID` and `spanID` set to the hexadecimal
forms of the span's identifiers and keeps the `module` field of the entry. -/
theorem GetLogger_span_witness :
    sampleLib.Data
        (GetLogger sampleLib (NewContext (WithLogger Background (some sampleEntry))
          (some sampleSpan))) "traceID" =
      some (FieldValue.str "0123456789abcdef0000000000000001") ∧
    sampleLib.Data
        (GetLogger sampleLib (NewContext (WithLogger Background (some sampleEntry))
          (some sampleSpan))) "spanID" =
      some (FieldValue.str "000000000000002a") ∧
    sampleLib.Data
        (GetLogger sampleLib (NewContext (WithLogger Background (some sampleEntry))
          (some sampleSpan))) "module" =
      some (FieldValue.str "cri") :=
  ⟨((GetLogger_span.1 sampleLib (NewContext (WithLogger Background (some sampleEntry))
      (some sampleSpan)) sampleSpan rfl).2.2.2 sampleLib_mergesFields).1.trans rfl,
   ((GetLogger_span.1 sampleLib (NewContext (WithLogger Background (some sampleEntry))
      (some sampleSpan)) sampleSpan rfl).2.2.2 sampleLib_mergesFields).2.1.trans rfl,
   (((GetLogger_span.1 sampleLib (NewContext (WithLogger Background (some sampleEntry))
      (some sampleSpan)) sampleSpan rfl).2.2.2 sampleLib_mergesFields).2.2 "module"
      (by decide) (by decide)).trans rfl⟩

end Cri
